import Mathlib

/-!
Shallow embedding of the reservation workflow of the restaurant backend
(`src/routes/customerRoutes.js`) together with the pagination and query
helpers of `src/models/CustomerModel.js` and the food-list controller.

Modelling conventions:
* Calendar dates are modelled at day granularity as natural numbers
  (`today` is a parameter); the JavaScript code compares `Date` values
  after zeroing the time of day, which coincides with this model.
* Times of day are modelled as the `(hours, minutes)` pair produced by
  `gio.split(':').map(Number)`; `nowMin` is the current minute of `today`.
* Request payload fields are modelled post-parse: a missing or empty
  field is `none`, matching JavaScript falsiness of `undefined`/`''`.
* The database is a pure in-memory list of rows; `executeQuery` outcomes
  that can fail are modelled explicitly by `QueryOutcome` where a claim
  is about the failure path.
-/

/-! ## String helpers (JavaScript primitives used by the routes) -/

/-- JavaScript `String.prototype.trim` on a character list: drop leading
and trailing whitespace. -/
def trimList (l : List Char) : List Char :=
  ((l.dropWhile Char.isWhitespace).reverse.dropWhile Char.isWhitespace).reverse

/-- JavaScript `s.trim()`. -/
def trimString (s : String) : String :=
  String.mk (trimList s.data)

/-- JavaScript `s.replace(/\s/g, '')`: remove every whitespace character. -/
def stripWhitespace (s : String) : String :=
  String.mk (s.data.filter (fun c => !c.isWhitespace))

/-- JavaScript truthiness of an optional string: `undefined`/`null`/`''`
are falsy, every other string is truthy. -/
def truthyS : Option String → Bool
  | none => false
  | some s => !s.data.isEmpty

/-- Character class of the name pattern `/^[a-zA-ZÀ-ỹ\s]+$/u` in
`validateReservationData`: ASCII letters, the Unicode block U+00C0–U+1EF9,
or whitespace. -/
def nameCharOk (c : Char) : Bool :=
  ('a' ≤ c && c ≤ 'z') || ('A' ≤ c && c ≤ 'Z') ||
    (0xC0 ≤ c.toNat && c.toNat ≤ 0x1EF9) || c.isWhitespace

/-- The phone pattern `/^[0-9]{10,11}$/`. -/
def phoneDigitsOk (s : String) : Bool :=
  s.data.all Char.isDigit && (s.data.length == 10 || s.data.length == 11)

/-- The e-mail pattern `/^[^\s@]+@[^\s@]+\.[^\s@]+$/`: one `@`, a nonempty
local part, and a domain with an interior dot; no whitespace anywhere. -/
def emailOk (s : String) : Bool :=
  match s.data.splitOn '@' with
  | [l, d] =>
    !l.isEmpty && l.all (fun c => !c.isWhitespace) &&
      d.all (fun c => !c.isWhitespace) && ((d.drop 1).dropLast.contains '.')
  | _ => false

/-! ## Reservation validator (`validateReservationData`) -/

def errNameMin : String := "Họ tên phải có ít nhất 2 ký tự"

def errNameMax : String := "Họ tên không được quá 100 ký tự"

def errNameChars : String := "Họ tên chỉ được chứa chữ cái và khoảng trắng"

def errPhoneRequired : String := "Số điện thoại là bắt buộc"

def errPhoneFormat : String := "Số điện thoại phải có 10-11 chữ số"

def errEmailFormat : String := "Email không đúng định dạng"

def errEmailMax : String := "Email không được quá 100 ký tự"

def errDateRequired : String := "Ngày đặt bàn là bắt buộc"

def errDatePast : String := "Không thể đặt bàn cho ngày trong quá khứ"

def errDateWindow : String := "Chỉ có thể đặt bàn trong vòng 30 ngày tới"

def errTimeRequired : String := "Giờ đặt bàn là bắt buộc"

def errTimeWindow : String := "Giờ đặt bàn phải trong khung 10:00 - 21:30"

def errTimePast : String := "Không thể đặt bàn cho giờ đã qua"

def errGuestsRequired : String := "Số lượng khách là bắt buộc"

def errGuestsRange : String := "Số lượng khách phải từ 1 đến 20 người"

def errNoteMax : String := "Ghi chú không được quá 500 ký tự"

/-- Incoming reservation payload, modelled post-parse.  `ngay` is a day
number, `gio` the `(hours, minutes)` pair, `so_luong_khach` the result of
`parseInt` (with `none` for a missing or unparseable value). -/
structure ReservationData where
  ten_khach : Option String
  sdt : Option String
  email : Option String
  ngay : Option Nat
  gio : Option (Nat × Nat)
  so_luong_khach : Option Int
  ghi_chu : Option String
  trang_thai : Option String
deriving Repr, DecidableEq

/-- The reservation validator of `src/routes/customerRoutes.js`
(`validateReservationData`, lines 764–854).  The JavaScript code pushes
each error independently onto one array, which is exactly this ordered
concatenation of condition-guarded singletons. -/
def validateReservationData (data : ReservationData) (today nowMin : Nat) :
    List String :=
  let name := data.ten_khach.getD ""
  let phone := if truthyS data.sdt then stripWhitespace (data.sdt.getD "") else ""
  (if !truthyS data.ten_khach || (trimString name).data.length < 2 then [errNameMin] else []) ++
  (if truthyS data.ten_khach && name.data.length > 100 then [errNameMax] else []) ++
  (if truthyS data.ten_khach && !(name.data.all nameCharOk) then [errNameChars] else []) ++
  (if !truthyS data.sdt then [errPhoneRequired] else []) ++
  (if !phone.data.isEmpty && !phoneDigitsOk phone then [errPhoneFormat] else []) ++
  (if truthyS data.email && !emailOk (data.email.getD "") then [errEmailFormat] else []) ++
  (if truthyS data.email && (data.email.getD "").data.length > 100 then [errEmailMax] else []) ++
  (if data.ngay.isNone then [errDateRequired] else []) ++
  (match data.ngay with
   | some d =>
     (if d < today then [errDatePast] else []) ++
     (if d > today + 30 then [errDateWindow] else [])
   | none => []) ++
  (if data.gio.isNone then [errTimeRequired] else []) ++
  (match data.gio with
   | some (h, m) =>
     (if h < 10 || h > 21 || (h == 21 && m > 30) then [errTimeWindow] else []) ++
     (match data.ngay with
      | some d => if d == today && 60 * h + m ≤ nowMin then [errTimePast] else []
      | none => [])
   | none => []) ++
  (if data.so_luong_khach.isNone then [errGuestsRequired] else []) ++
  (match data.so_luong_khach with
   | none => [errGuestsRange]
   | some g => if g < 1 || g > 20 then [errGuestsRange] else []) ++
  (if truthyS data.ghi_chu && (data.ghi_chu.getD "").data.length > 500 then [errNoteMax] else [])

/-! ## Stored reservations and the conflict detector -/

/-- A row of the `dat_ban` table. -/
structure Reservation where
  id_datban : Nat
  ten_khach : String
  sdt : String
  email : Option String
  ngay : Nat
  gio : Nat × Nat
  so_luong_khach : Int
  ghi_chu : Option String
  trang_thai : String
deriving Repr, DecidableEq

/-- The SQL predicate of `checkDuplicateReservation`:
`sdt = ? AND ngay = ? AND gio = ? AND trang_thai != 'da_huy'`, with
`AND id_datban != ?` appended only when `excludeId` is truthy — in
JavaScript `if (excludeId)` is false for both `null` and `0`, so an
exclude id of `0` adds no filter. -/
def matchesDuplicate (sdt : String) (ngay : Nat) (gio : Nat × Nat)
    (excludeId : Option Nat) (r : Reservation) : Bool :=
  r.sdt == sdt && r.ngay == ngay && r.gio == gio && r.trang_thai != "da_huy" &&
    (match excludeId with
     | some k => k == 0 || r.id_datban != k
     | none => true)

/-- The `COUNT(*)` returned by the duplicate query. -/
def dupCount (db : List Reservation) (sdt : String) (ngay : Nat)
    (gio : Nat × Nat) (excludeId : Option Nat) : Nat :=
  (db.filter (matchesDuplicate sdt ngay gio excludeId)).length

/-- Outcome of an `executeQuery` call: a successful result, an
unsuccessful result (`result.success === false`), or a thrown error. -/
inductive QueryOutcome (α : Type) where
  | ok (a : α)
  | fail
  | thrown
deriving Repr, DecidableEq

/-- How `checkDuplicateReservation` consumes the query outcome:
`result.success && result.data[0].count > 0`, with the surrounding
`try`/`catch` returning `false` on a thrown error. -/
def checkDuplicateRun (q : QueryOutcome Nat) : Bool :=
  match q with
  | .ok c => decide (c > 0)
  | .fail => false
  | .thrown => false

/-- The conflict detector on a database whose duplicate query succeeds
(`checkDuplicateReservation`, lines 857–876). -/
def checkDuplicateReservation (db : List Reservation) (sdt : String)
    (ngay : Nat) (gio : Nat × Nat) (excludeId : Option Nat) : Bool :=
  checkDuplicateRun (.ok (dupCount db sdt ngay gio excludeId))

/-- Modelled from the spec: the conflict count as the specification words
it — active rows matching `(phone, date, time)` whose id differs from the
exclude id whenever an exclude id is given (with no special case for 0).
Used only to compare the code's detector against the claim. -/
def specConflictCount (db : List Reservation) (sdt : String) (ngay : Nat)
    (gio : Nat × Nat) (excludeId : Option Nat) : Nat :=
  (db.filter (fun r =>
    r.sdt == sdt && r.ngay == ngay && r.gio == gio && r.trang_thai != "da_huy" &&
      (match excludeId with
       | some k => r.id_datban != k
       | none => true))).length

/-! ## Route handlers over a pure database state -/

/-- The in-memory database: the rows of `dat_ban` plus the next
`AUTO_INCREMENT` id. -/
structure DbState where
  rows : List Reservation
  nextId : Nat
deriving Repr, DecidableEq

/-- The JSON response of a handler: HTTP status code, the `success`
flag, the message, the validation `errors` array and the returned row. -/
structure ApiResponse where
  status : Nat
  success : Bool
  message : String
  errors : List String
  dataRow : Option Reservation
deriving Repr, DecidableEq

/-- The row inserted by `POST /api/datban`: trimmed name and phone,
optional trimmed e-mail and note, and initial status `'cho_xac_nhan'`. -/
def mkInsertRow (s : DbState) (data : ReservationData) : Reservation :=
  { id_datban := s.nextId
    ten_khach := trimString (data.ten_khach.getD "")
    sdt := trimString (data.sdt.getD "")
    email := if truthyS data.email then some (trimString (data.email.getD "")) else none
    ngay := data.ngay.getD 0
    gio := data.gio.getD (0, 0)
    so_luong_khach := data.so_luong_khach.getD 0
    ghi_chu := if truthyS data.ghi_chu then some (trimString (data.ghi_chu.getD "")) else none
    trang_thai := "cho_xac_nhan" }

/-- Handler of `POST /api/datban` (lines 878–942): validate, check for a
duplicate with the raw `data.sdt`/`data.ngay`/`data.gio`, insert, then
re-read the created row by its insert id. -/
def handleCreateReservation (s : DbState) (data : ReservationData)
    (today nowMin : Nat) : ApiResponse × DbState :=
  let verrs := validateReservationData data today nowMin
  if verrs ≠ [] then
    ({ status := 400, success := false, message := "Dữ liệu không hợp lệ",
       errors := verrs, dataRow := none }, s)
  else if checkDuplicateReservation s.rows (data.sdt.getD "") (data.ngay.getD 0)
      (data.gio.getD (0, 0)) none then
    ({ status := 400, success := false,
       message := "Bạn đã có đặt bàn vào thời gian này rồi",
       errors := [], dataRow := none }, s)
  else
    let row := mkInsertRow s data
    let rows := s.rows ++ [row]
    ({ status := 201, success := true,
       message := "Đặt bàn thành công! Chúng tôi sẽ liên hệ xác nhận trong vòng 15 phút.",
       errors := [],
       dataRow := rows.find? (fun r => r.id_datban == s.nextId) },
     { rows := rows, nextId := s.nextId + 1 })

/-- The row written by `PUT /api/datban/:id`: every column is replaced,
with `trang_thai = data.trang_thai || 'cho_xac_nhan'`. -/
def mkPutRow (id : Nat) (data : ReservationData) : Reservation :=
  { id_datban := id
    ten_khach := trimString (data.ten_khach.getD "")
    sdt := trimString (data.sdt.getD "")
    email := if truthyS data.email then some (trimString (data.email.getD "")) else none
    ngay := data.ngay.getD 0
    gio := data.gio.getD (0, 0)
    so_luong_khach := data.so_luong_khach.getD 0
    ghi_chu := if truthyS data.ghi_chu then some (trimString (data.ghi_chu.getD "")) else none
    trang_thai := if truthyS data.trang_thai then data.trang_thai.getD "" else "cho_xac_nhan" }

/-- Handler of `PUT /api/datban/:id` (lines 1058–1143): existence check,
validation, duplicate check excluding the updated id, full update,
re-read. -/
def handlePutReservation (s : DbState) (id : Nat) (data : ReservationData)
    (today nowMin : Nat) : ApiResponse × DbState :=
  match s.rows.find? (fun r => r.id_datban == id) with
  | none =>
    ({ status := 404, success := false, message := "Không tìm thấy đặt bàn",
       errors := [], dataRow := none }, s)
  | some _ =>
    let verrs := validateReservationData data today nowMin
    if verrs ≠ [] then
      ({ status := 400, success := false, message := "Dữ liệu không hợp lệ",
         errors := verrs, dataRow := none }, s)
    else if checkDuplicateReservation s.rows (data.sdt.getD "") (data.ngay.getD 0)
        (data.gio.getD (0, 0)) (some id) then
      ({ status := 400, success := false,
         message := "Đã có đặt bàn khác vào thời gian này",
         errors := [], dataRow := none }, s)
    else
      let rows := s.rows.map (fun r => if r.id_datban == id then mkPutRow id data else r)
      ({ status := 200, success := true, message := "Cập nhật đặt bàn thành công",
         errors := [],
         dataRow := rows.find? (fun r => r.id_datban == id) },
       { rows := rows, nextId := s.nextId })

/-- Body of `PATCH /api/datban/:id`: any subset of the allowed columns;
a present field is `some`. -/
structure PatchUpdates where
  ten_khach : Option String
  sdt : Option String
  email : Option String
  ngay : Option Nat
  gio : Option (Nat × Nat)
  so_luong_khach : Option Int
  ghi_chu : Option String
  trang_thai : Option String
deriving Repr, DecidableEq

/-- Whether the dynamic update gathered at least one allowed field. -/
def hasAnyField (u : PatchUpdates) : Bool :=
  u.ten_khach.isSome || u.sdt.isSome || u.email.isSome || u.ngay.isSome ||
    u.gio.isSome || u.so_luong_khach.isSome || u.ghi_chu.isSome || u.trang_thai.isSome

/-- The dynamic `UPDATE dat_ban SET field = ? ...` of the partial update:
each provided field overwrites the column, the rest keep their value. -/
def applyPatch (u : PatchUpdates) (r : Reservation) : Reservation :=
  { id_datban := r.id_datban
    ten_khach := u.ten_khach.getD r.ten_khach
    sdt := u.sdt.getD r.sdt
    email := match u.email with
      | some e => some e
      | none => r.email
    ngay := u.ngay.getD r.ngay
    gio := u.gio.getD r.gio
    so_luong_khach := u.so_luong_khach.getD r.so_luong_khach
    ghi_chu := match u.ghi_chu with
      | some n => some n
      | none => r.ghi_chu
    trang_thai := u.trang_thai.getD r.trang_thai }

/-- Handler of `PATCH /api/datban/:id` (lines 1346–1417): existence
check, then the provided fields are written directly — no validation and
no duplicate check. -/
def handlePatchReservation (s : DbState) (id : Nat) (u : PatchUpdates) :
    ApiResponse × DbState :=
  match s.rows.find? (fun r => r.id_datban == id) with
  | none =>
    ({ status := 404, success := false, message := "Không tìm thấy đặt bàn",
       errors := [], dataRow := none }, s)
  | some _ =>
    if !hasAnyField u then
      ({ status := 400, success := false, message := "Không có dữ liệu để cập nhật",
         errors := [], dataRow := none }, s)
    else
      let rows := s.rows.map (fun r => if r.id_datban == id then applyPatch u r else r)
      ({ status := 200, success := true, message := "Cập nhật đặt bàn thành công",
         errors := [],
         dataRow := rows.find? (fun r => r.id_datban == id) },
       { rows := rows, nextId := s.nextId })

/-- The status whitelist of `PATCH /api/datban/:id/status`. -/
def validStatuses : List String := ["cho_xac_nhan", "da_xac_nhan", "da_huy"]

/-- Handler of `PATCH /api/datban/:id/status` (lines 1191–1251): status
whitelist check, existence check, then the status is written
unconditionally — the current status is never consulted. -/
def handleStatusUpdate (s : DbState) (id : Nat) (trang_thai : Option String) :
    ApiResponse × DbState :=
  if !truthyS trang_thai || !(validStatuses.contains (trang_thai.getD "")) then
    ({ status := 400, success := false, message := "Trạng thái không hợp lệ",
       errors := [], dataRow := none }, s)
  else
    match s.rows.find? (fun r => r.id_datban == id) with
    | none =>
      ({ status := 404, success := false, message := "Không tìm thấy đặt bàn",
         errors := [], dataRow := none }, s)
    | some _ =>
      let rows := s.rows.map (fun r =>
        if r.id_datban == id then
          { r with trang_thai := trang_thai.getD "" }
        else r)
      ({ status := 200, success := true, message := "Cập nhật trạng thái thành công",
         errors := [],
         dataRow := rows.find? (fun r => r.id_datban == id) },
       { rows := rows, nextId := s.nextId })

/-- The best-effort uniqueness invariant of the data model: for every
`(phone, date, time)` tuple at most one non-cancelled reservation exists. -/
def ReservationInvariant (rows : List Reservation) : Prop :=
  ∀ sdt ngay gio, (rows.filter (matchesDuplicate sdt ngay gio none)).length ≤ 1

/-! ## Pagination and list limits -/

/-- The object returned by `buildPagination` in
`src/models/CustomerModel.js` (lines 1117–1130). -/
structure PaginationInfo where
  total : Nat
  limit : Nat
  offset : Nat
  currentPage : Nat
  totalPages : Nat
  hasMore : Bool
  hasPrevious : Bool
deriving Repr, DecidableEq

/-- `buildPagination(total, limit, offset)`.  `Math.floor(offset/limit)`
is natural division and `Math.ceil(total/limit)` is `(total+limit-1)/limit`
for natural inputs with `limit > 0` (proved below against the real
`ceil`). -/
def buildPagination (total limit offset : Nat) : PaginationInfo :=
  { total := total
    limit := limit
    offset := offset
    currentPage := offset / limit + 1
    totalPages := (total + limit - 1) / limit
    hasMore := decide (offset + limit < total)
    hasPrevious := decide (0 < offset) }

/-- Effective limit of `GET /api/datban` (line 950):
`parseInt(req.query.limit) || 20` — no clamping; `none` models a missing
or unparseable value, and a parsed `0` is falsy. -/
def reservationListLimit : Option Int → Int
  | none => 20
  | some v => if v == 0 then 20 else v

/-- Effective limit of `FoodController.getAllFoods`
(`Math.min(parseInt(limit), 100)` with default `50`). -/
def foodListLimit : Option Int → Int
  | none => 50
  | some v => min v 100

/-! ## Search sanitizing and SQL LIKE semantics -/

/-- `replace(/[%_]/g, '\\$&')`: prefix each SQL wildcard with a
backslash. -/
def escapeWildcard (c : Char) : List Char :=
  if c == '%' || c == '_' then ['\\', c] else [c]

/-- The trim-and-strip front half of `sanitizeSearchQuery`:
`query.trim().replace(/[<>]/g, '')`. -/
def sanitizeCore (q : List Char) : List Char :=
  (trimList q).filter (fun c => !(c == '<' || c == '>'))

/-- `sanitizeSearchQuery` (CustomerModel.js lines 1137–1145) on a
character list: trim, drop `<`/`>`, escape `%`/`_`, truncate to 100. -/
def sanitizeSearchList (q : List Char) : List Char :=
  ((sanitizeCore q).flatMap escapeWildcard).take 100

/-- `sanitizeSearchQuery` on strings, including the falsy-input guard. -/
def sanitizeSearchQuery (q : String) : String :=
  if q.data.isEmpty then "" else String.mk (sanitizeSearchList q.data)

/-- The LIKE pattern built by `buildWhereClause` for the `search` filter:
`` `%${sanitizeSearchQuery(value)}%` ``. -/
def mkSearchPattern (q : List Char) : List Char :=
  '%' :: (sanitizeSearchList q ++ ['%'])

/-- Modelled from the spec: SQL `LIKE` matching as the database evaluates
it (the repository delegates this to MySQL).  `%` matches any sequence,
`_` any single character, and backslash escapes the following character;
a lone trailing backslash matches itself. -/
def likeMatch (p s : List Char) : Bool :=
  match p, s with
  | [], s => s.isEmpty
  | c :: p1, s =>
    if c == '%' then
      s.tails.any (fun t => likeMatch p1 t)
    else if c == '_' then
      match s with
      | [] => false
      | _ :: s2 => likeMatch p1 s2
    else if c == '\\' then
      match p1 with
      | [] => s == ['\\']
      | e :: p2 =>
        match s with
        | [] => false
        | d :: s2 => d == e && likeMatch p2 s2
    else
      match s with
      | [] => false
      | d :: s2 => d == c && likeMatch p1 s2

/-! ## Concrete fixtures used by witnesses and counterexamples -/

/-- An active stored reservation whose id is 0, exhibiting the falsy
exclude-id corner of the conflict detector. -/
def rowIdZero : Reservation :=
  { id_datban := 0
    ten_khach := "Nguyen Van A"
    sdt := "0912345678"
    email := none
    ngay := 5
    gio := (19, 0)
    so_luong_khach := 4
    ghi_chu := none
    trang_thai := "cho_xac_nhan" }

/-- A fully valid creation payload used to witness the insert branch. -/
def validRequest : ReservationData :=
  { ten_khach := some "Nguyen Van A"
    sdt := some "0912345678"
    email := none
    ngay := some 101
    gio := some (19, 0)
    so_luong_khach := some 4
    ghi_chu := none
    trang_thai := none }

/-- A stored reservation in the cancelled state. -/
def cancelledRow : Reservation :=
  { id_datban := 1
    ten_khach := "Nguyen Van A"
    sdt := "0912345678"
    email := none
    ngay := 101
    gio := (19, 0)
    so_luong_khach := 4
    ghi_chu := none
    trang_thai := "da_huy" }

/-- The same reservation in the pending state. -/
def pendingRow : Reservation :=
  { cancelledRow with trang_thai := "cho_xac_nhan" }

/-- The pending reservation stored under id 2 with the same
`(phone, date, time)` as `cancelledRow`. -/
def activeDupRow : Reservation :=
  { pendingRow with id_datban := 2 }

/-- A creation payload whose phone carries a leading space: it passes
validation (whitespace is stripped before the digit check), the
duplicate query compares the raw padded phone, but the insert stores the
trimmed phone. -/
def paddedPhoneRequest : ReservationData :=
  { ten_khach := some "Nguyen Van A"
    sdt := some " 0912345678"
    email := none
    ngay := some 101
    gio := some (19, 0)
    so_luong_khach := some 4
    ghi_chu := none
    trang_thai := none }

/-- A partial-update body that only sets the status field. -/
def statusOnlyPatch : PatchUpdates :=
  { ten_khach := none
    sdt := none
    email := none
    ngay := none
    gio := none
    so_luong_khach := none
    ghi_chu := none
    trang_thai := some "cho_xac_nhan" }

/-! ## Helper lemmas -/

/-- Membership in a condition-guarded singleton. -/
theorem mem_guard {c : Prop} [Decidable c] {m a : String} :
    (a ∈ if c then [m] else ([] : List String)) ↔ (c ∧ a = m) := by
  split <;> simp_all

/-- Unfolding of the SQL duplicate predicate into its propositional
reading, including the JavaScript truthiness of the exclude id. -/
theorem matchesDuplicate_eq_true_iff (sdt : String) (ngay : Nat)
    (gio : Nat × Nat) (e : Option Nat) (r : Reservation) :
    matchesDuplicate sdt ngay gio e r = true ↔
      (r.sdt = sdt ∧ r.ngay = ngay ∧ r.gio = gio ∧ r.trang_thai ≠ "da_huy" ∧
        ∀ k, e = some k → k ≠ 0 → r.id_datban ≠ k) := by
  constructor
  · intro h
    simp only [matchesDuplicate, Bool.and_eq_true, beq_iff_eq, bne_iff_ne] at h
    obtain ⟨⟨⟨⟨h1, h2⟩, h3⟩, h4⟩, h5⟩ := h
    refine ⟨h1, h2, h3, h4, ?_⟩
    rintro k rfl hk0
    simp only [Bool.or_eq_true, beq_iff_eq, bne_iff_ne] at h5
    rcases h5 with h5 | h5
    · exact absurd h5 hk0
    · exact h5
  · rintro ⟨h1, h2, h3, h4, h5⟩
    simp only [matchesDuplicate, Bool.and_eq_true, beq_iff_eq, bne_iff_ne]
    refine ⟨⟨⟨⟨h1, h2⟩, h3⟩, h4⟩, ?_⟩
    cases e with
    | none => rfl
    | some k =>
      simp only [Bool.or_eq_true, beq_iff_eq, bne_iff_ne]
      by_cases hk : k = 0
      · exact Or.inl hk
      · exact Or.inr (h5 k rfl hk)

/-- A list whose active rows number at most one satisfies the
per-tuple uniqueness invariant. -/
theorem invariant_of_le_one_active (rows : List Reservation)
    (h : (rows.filter (fun r => r.trang_thai != "da_huy")).length ≤ 1) :
    ReservationInvariant rows := by
  intro sdt ngay gio
  have hmono : rows.countP (matchesDuplicate sdt ngay gio none) ≤
      rows.countP (fun r => r.trang_thai != "da_huy") := by
    apply List.countP_mono_left
    intro r _ hp
    rw [matchesDuplicate_eq_true_iff] at hp
    simpa using hp.2.2.2.1
  rw [List.countP_eq_length_filter, List.countP_eq_length_filter] at hmono
  exact le_trans hmono h

/-- Natural-number form of `Math.ceil(t / l)` for `l > 0`. -/
theorem natCeilDiv_eq (t l : Nat) (hl : 0 < l) :
    ⌈(t : ℚ) / (l : ℚ)⌉₊ = (t + l - 1) / l := by
  have hl' : (0 : ℚ) < (l : ℚ) := by exact_mod_cast hl
  rcases Nat.eq_zero_or_pos t with rfl | ht
  · have h0 : (l - 1) / l = 0 := Nat.div_eq_of_lt (by omega)
    simp [h0]
  · have h1 : ((t + l - 1) / l) * l ≤ t + l - 1 := Nat.div_mul_le_self _ _
    have h2 : t + l - 1 < ((t + l - 1) / l + 1) * l :=
      (Nat.div_lt_iff_lt_mul hl).mp (Nat.lt_succ_self _)
    have h2' : ((t + l - 1) / l + 1) * l = ((t + l - 1) / l) * l + l :=
      add_one_mul _ _
    have hnpos : 1 ≤ (t + l - 1) / l :=
      (Nat.le_div_iff_mul_le hl).mpr (by omega)
    have key2 : t ≤ ((t + l - 1) / l) * l := by omega
    have key1 : ((t + l - 1) / l - 1) * l < t := by
      have hs : ((t + l - 1) / l - 1) * l + l = ((t + l - 1) / l) * l := by
        rw [← add_one_mul]
        congr 1
        omega
      omega
    apply le_antisymm
    · rw [Nat.ceil_le, div_le_iff₀ hl']
      exact_mod_cast key2
    · have hlt : (t + l - 1) / l - 1 < ⌈(t : ℚ) / (l : ℚ)⌉₊ := by
        rw [Nat.lt_ceil, lt_div_iff₀ hl']
        exact_mod_cast key1
      omega

/-! ## Claim theorems -/

/-- C9.  Whenever the duplicate query comes back unsuccessful or throws,
the conflict detector reports no conflict (fails open) instead of
propagating the failure. -/
theorem checkDuplicate_fails_open (q : QueryOutcome Nat)
    (h : q = QueryOutcome.fail ∨ q = QueryOutcome.thrown) :
    checkDuplicateRun q = false := by
  rcases h with h | h <;> subst h <;> rfl

/-- Witness for `checkDuplicate_fails_open` at the unsuccessful-result
outcome. -/
theorem checkDuplicate_fails_open_witness :
    checkDuplicateRun QueryOutcome.fail = false :=
  checkDuplicate_fails_open _ (Or.inl rfl)

/-- C7 counterexample.  The reservations list route applies no clamping:
`limit=101` is used as-is, not reduced to 100. -/
theorem reservation_limit_not_clamped :
    reservationListLimit (some 101) = 101 ∧ reservationListLimit (some 101) ≠ 100 := by
  constructor <;> decide

/-- C7 (amended).  Only the food-list controller clamps the
client-supplied limit to 100; the reservations list route uses the
parsed value directly, with 20 replacing a missing or zero value. -/
theorem list_limit_spec :
    (∀ q : Option Int, foodListLimit q ≤ 100) ∧
    (∀ v : Int, v ≠ 0 → reservationListLimit (some v) = v) ∧
    reservationListLimit none = 20 := by
  refine ⟨?_, ?_, rfl⟩
  · intro q
    cases q with
    | none => decide
    | some v =>
      simp only [foodListLimit]
      exact min_le_right _ _
  · intro v hv
    simp [reservationListLimit, hv]

/-- Witness for `list_limit_spec`: the food limit is clamped at 101 while
the reservations limit keeps 101. -/
theorem list_limit_spec_witness :
    foodListLimit (some 101) ≤ 100 ∧ reservationListLimit (some 101) = 101 :=
  ⟨list_limit_spec.1 (some 101), list_limit_spec.2.1 101 (by decide)⟩

/-- C6.  `buildPagination` computes `floor(offset/limit)+1` pages,
`ceil(total/limit)` total pages, and the two boolean flags, including the
degenerate `total = 0` case and the (95, 20, 40) instance. -/
theorem buildPagination_spec (total limit offset : Nat) (hl : 0 < limit) :
    (buildPagination total limit offset).currentPage =
        ⌊(offset : ℚ) / (limit : ℚ)⌋₊ + 1 ∧
    (buildPagination total limit offset).totalPages =
        ⌈(total : ℚ) / (limit : ℚ)⌉₊ ∧
    ((buildPagination total limit offset).hasMore = true ↔
        offset + limit < total) ∧
    ((buildPagination total limit offset).hasPrevious = true ↔ 0 < offset) ∧
    (buildPagination 0 limit offset).totalPages = 0 ∧
    (buildPagination 0 limit offset).hasMore = false ∧
    (buildPagination 95 20 40).currentPage = 3 ∧
    (buildPagination 95 20 40).totalPages = 5 ∧
    (buildPagination 95 20 40).hasMore = true ∧
    (buildPagination 95 20 40).hasPrevious = true := by
  refine ⟨?_, ?_, ?_, ?_, ?_, ?_, by decide, by decide, by decide, by decide⟩
  · have : ⌊(offset : ℚ) / (limit : ℚ)⌋₊ = offset / limit := by
      rw [Nat.floor_div_nat, Nat.floor_natCast]
    simp [buildPagination, this]
  · rw [natCeilDiv_eq _ _ hl]
    rfl
  · simp [buildPagination]
  · simp [buildPagination]
  · have h0 : (limit - 1) / limit = 0 := Nat.div_eq_of_lt (by omega)
    simp [buildPagination, h0]
  · simp [buildPagination]

/-- Witness for `buildPagination_spec` at (95, 20, 40). -/
theorem buildPagination_spec_witness :
    (buildPagination 95 20 40).currentPage = 3 ∧
    (buildPagination 95 20 40).totalPages = 5 ∧
    (buildPagination 95 20 40).hasMore = true ∧
    (buildPagination 95 20 40).hasPrevious = true := by
  have h := buildPagination_spec 95 20 40 (by decide)
  exact ⟨h.2.2.2.2.2.2.1, h.2.2.2.2.2.2.2.1, h.2.2.2.2.2.2.2.2.1,
    h.2.2.2.2.2.2.2.2.2⟩

/-- C2 counterexample.  With exclude-id 0 and a matching active row of id
0, the detector returns true although the claim's count (which excludes
id 0) is zero: `if (excludeId)` treats 0 like a missing exclude id. -/
theorem checkDuplicate_excludeZero_counterexample :
    ¬ (checkDuplicateReservation [rowIdZero] "0912345678" 5 (19, 0) (some 0) = true ↔
        0 < specConflictCount [rowIdZero] "0912345678" 5 (19, 0) (some 0)) := by
  decide

/-- C2 (amended).  The conflict detector returns true exactly when an
active reservation with the same `(phone, date, time)` is stored whose id
differs from the exclude id whenever a non-zero exclude id is given (an
exclude id of 0 is falsy in JavaScript and is ignored); in particular it
returns false once every matching reservation is cancelled. -/
theorem checkDuplicateReservation_spec (db : List Reservation) (sdt : String)
    (ngay : Nat) (gio : Nat × Nat) (excludeId : Option Nat) :
    checkDuplicateReservation db sdt ngay gio excludeId = true ↔
      ∃ r ∈ db, r.sdt = sdt ∧ r.ngay = ngay ∧ r.gio = gio ∧
        r.trang_thai ≠ "da_huy" ∧
        ∀ k, excludeId = some k → k ≠ 0 → r.id_datban ≠ k := by
  rw [checkDuplicateReservation, checkDuplicateRun]
  rw [decide_eq_true_eq, dupCount, gt_iff_lt, List.length_pos_iff_exists_mem]
  constructor
  · rintro ⟨r, hr⟩
    rw [List.mem_filter] at hr
    exact ⟨r, hr.1, (matchesDuplicate_eq_true_iff _ _ _ _ _).mp hr.2⟩
  · rintro ⟨r, hmem, hr⟩
    exact ⟨r, List.mem_filter.mpr
      ⟨hmem, (matchesDuplicate_eq_true_iff _ _ _ _ _).mpr hr⟩⟩

/-- C4.  With a well-formed minute field, the time-window error is
raised exactly when the time lies outside the inclusive window
10:00–21:30, and for a booking on the current day the past-time error is
raised exactly when the requested time is not strictly in the future. -/
theorem time_window_spec (data : ReservationData) (today nowMin h m : Nat)
    (hg : data.gio = some (h, m)) (hm : m < 60) :
    ((errTimeWindow ∈ validateReservationData data today nowMin) ↔
      ¬(600 ≤ 60 * h + m ∧ 60 * h + m ≤ 1290)) ∧
    (∀ d, data.ngay = some d → d = today →
      ((errTimePast ∈ validateReservationData data today nowMin) ↔
        60 * h + m ≤ nowMin)) := by
  constructor
  · rcases hn : data.ngay with _ | d <;>
      rcases hq : data.so_luong_khach with _ | g <;>
      · simp [validateReservationData, hg, hn, hq, mem_guard, errNameMin,
          errNameMax, errNameChars, errPhoneRequired, errPhoneFormat,
          errEmailFormat, errEmailMax, errDateRequired, errDatePast,
          errDateWindow, errTimeRequired, errTimeWindow, errTimePast,
          errGuestsRequired, errGuestsRange, errNoteMax]
        omega
  · intro d hd htoday
    subst htoday
    rcases hq : data.so_luong_khach with _ | g <;>
      · simp [validateReservationData, hg, hd, hq, mem_guard, errNameMin,
          errNameMax, errNameChars, errPhoneRequired, errPhoneFormat,
          errEmailFormat, errEmailMax, errDateRequired, errDatePast,
          errDateWindow, errTimeRequired, errTimeWindow, errTimePast,
          errGuestsRequired, errGuestsRange, errNoteMax]

/-- Witness for `time_window_spec`: at 21:31 on a non-today date the
window error is present. -/
theorem time_window_spec_witness :
    errTimeWindow ∈ validateReservationData
      { ten_khach := some "Nguyen Van A", sdt := some "0912345678",
        email := none, ngay := some 101, gio := some (21, 31),
        so_luong_khach := some 4, ghi_chu := none, trang_thai := none }
      100 600 := by
  have h := time_window_spec
    { ten_khach := some "Nguyen Van A", sdt := some "0912345678",
      email := none, ngay := some 101, gio := some (21, 31),
      so_luong_khach := some 4, ghi_chu := none, trang_thai := none }
    100 600 21 31 rfl (by decide)
  exact h.1.mpr (by decide)

/-- C5.  A date strictly before today always contributes the past-date
error, and a date more than 30 days after today always contributes the
booking-window error, independently of every other field. -/
theorem date_window_spec (data : ReservationData) (today nowMin d : Nat)
    (hd : data.ngay = some d) :
    (d < today → errDatePast ∈ validateReservationData data today nowMin) ∧
    (today + 30 < d → errDateWindow ∈ validateReservationData data today nowMin) := by
  constructor
  · intro hlt
    simp [validateReservationData, hd, hlt]
  · intro hgt
    simp [validateReservationData, hd, hgt]

/-- Witness for `date_window_spec`: a date one day in the past yields
the past-date error even with every other field invalid. -/
theorem date_window_spec_witness :
    errDatePast ∈ validateReservationData
      { ten_khach := none, sdt := none, email := none, ngay := some 99,
        gio := none, so_luong_khach := none, ghi_chu := none,
        trang_thai := none } 100 600 :=
  (date_window_spec
    { ten_khach := none, sdt := none, email := none, ngay := some 99,
      gio := none, so_luong_khach := none, ghi_chu := none,
      trang_thai := none } 100 600 99 rfl).1 (by decide)

/-- C1.  `POST /api/datban`: validation errors yield a 400 carrying the
error list with the state unchanged; otherwise a detected duplicate
yields a 400 with the state unchanged; otherwise exactly the one new row
is appended with initial status `'cho_xac_nhan'`, re-read by its insert
id, and returned with a 201.  `hfresh` models the `AUTO_INCREMENT`
freshness of the next id. -/
theorem create_reservation_spec (s : DbState) (data : ReservationData)
    (today nowMin : Nat)
    (hfresh : ∀ r ∈ s.rows, r.id_datban ≠ s.nextId) :
    (validateReservationData data today nowMin ≠ [] →
      (handleCreateReservation s data today nowMin).1.status = 400 ∧
      (handleCreateReservation s data today nowMin).1.success = false ∧
      (handleCreateReservation s data today nowMin).1.errors =
        validateReservationData data today nowMin ∧
      (handleCreateReservation s data today nowMin).2 = s) ∧
    (validateReservationData data today nowMin = [] →
      checkDuplicateReservation s.rows (data.sdt.getD "") (data.ngay.getD 0)
        (data.gio.getD (0, 0)) none = true →
      (handleCreateReservation s data today nowMin).1.status = 400 ∧
      (handleCreateReservation s data today nowMin).1.success = false ∧
      (handleCreateReservation s data today nowMin).2 = s) ∧
    (validateReservationData data today nowMin = [] →
      checkDuplicateReservation s.rows (data.sdt.getD "") (data.ngay.getD 0)
        (data.gio.getD (0, 0)) none = false →
      (handleCreateReservation s data today nowMin).1.status = 201 ∧
      (handleCreateReservation s data today nowMin).1.success = true ∧
      (handleCreateReservation s data today nowMin).2.rows =
        s.rows ++ [mkInsertRow s data] ∧
      (mkInsertRow s data).trang_thai = "cho_xac_nhan" ∧
      (handleCreateReservation s data today nowMin).1.dataRow =
        some (mkInsertRow s data)) := by
  refine ⟨?_, ?_, ?_⟩
  · intro hv
    simp [handleCreateReservation, hv]
  · intro hv hdup
    simp only [Prod.mk_zero_zero] at hdup
    simp [handleCreateReservation, hv, hdup]
  · intro hv hdup
    simp only [Prod.mk_zero_zero] at hdup
    have hnone : s.rows.find? (fun r => r.id_datban == s.nextId) = none := by
      rw [List.find?_eq_none]
      intro r hr
      simpa using hfresh r hr
    have hfind : (s.rows ++ [mkInsertRow s data]).find?
        (fun r => r.id_datban == s.nextId) = some (mkInsertRow s data) := by
      rw [List.find?_append, hnone]
      have : (mkInsertRow s data).id_datban = s.nextId := rfl
      simp [List.find?, this]
    simp [handleCreateReservation, hv, hdup, hfind]
    rfl

/-- Witness for `create_reservation_spec`: a valid request against the
empty database takes the 201 insert branch. -/
theorem create_reservation_spec_witness :
    (handleCreateReservation ⟨[], 1⟩ validRequest 100 600).1.status = 201 ∧
    (handleCreateReservation ⟨[], 1⟩ validRequest 100 600).2.rows =
      [] ++ [mkInsertRow ⟨[], 1⟩ validRequest] := by
  have h := create_reservation_spec ⟨[], 1⟩ validRequest 100 600
    (by intro r hr; simp at hr)
  have h3 := h.2.2 (by decide) (by decide)
  exact ⟨h3.1, h3.2.2.1⟩

/-- Updating via the identity-on-ids function `g` commutes with looking
up a row by id. -/
theorem find?_map_update (rows : List Reservation) (id : Nat)
    (g : Reservation → Reservation)
    (hg : ∀ r, (g r).id_datban = r.id_datban) :
    (rows.map (fun r => if r.id_datban == id then g r else r)).find?
        (fun r => r.id_datban == id) =
      (rows.find? (fun r => r.id_datban == id)).map g := by
  induction rows with
  | nil => rfl
  | cons a l ih =>
    simp only [List.map_cons]
    cases hbeq : a.id_datban == id with
    | true =>
      have hga : ((g a).id_datban == id) = true := by rw [hg]; exact hbeq
      simp [List.find?_cons, hga, hbeq]
    | false =>
      rw [if_neg (by simp), List.find?_cons, List.find?_cons]
      simp only [hbeq]
      exact ih

/-- C10 counterexample.  A cancelled reservation is moved back to
pending by the status route: the handler never consults the current
status, so `da_huy` is not terminal. -/
theorem cancelled_reactivation_counterexample :
    cancelledRow.trang_thai = "da_huy" ∧
    (handleStatusUpdate ⟨[cancelledRow], 2⟩ 1 (some "cho_xac_nhan")).1.status = 200 ∧
    ((handleStatusUpdate ⟨[cancelledRow], 2⟩ 1 (some "cho_xac_nhan")).2.rows.map
      (fun r => r.trang_thai)) = ["cho_xac_nhan"] := by
  refine ⟨rfl, by decide, by decide⟩

/-- C10 (amended).  The status route sets any whitelisted requested
status on an existing reservation regardless of its current status; in
particular a cancelled reservation can be returned to pending or
confirmed. -/
theorem status_update_spec (s : DbState) (id : Nat) (st : String)
    (r : Reservation) (hst : st ∈ validStatuses)
    (hfind : s.rows.find? (fun r2 => r2.id_datban == id) = some r) :
    (handleStatusUpdate s id (some st)).1.status = 200 ∧
    (handleStatusUpdate s id (some st)).2.rows.find?
        (fun r2 => r2.id_datban == id) = some { r with trang_thai := st } := by
  have hc : validStatuses.contains st = true := by
    show List.elem st validStatuses = true
    exact List.elem_iff.mpr hst
  have ht : truthyS (some st) = true := by
    simp only [validStatuses, List.mem_cons, List.not_mem_nil, or_false] at hst
    rcases hst with rfl | rfl | rfl <;> rfl
  rw [handleStatusUpdate, if_neg (by simp [hc, ht, hst])]
  simp only [hfind, Option.getD_some]
  refine ⟨by trivial, ?_⟩
  rw [find?_map_update s.rows id (fun r2 => { r2 with trang_thai := st })
    (fun _ => rfl), hfind]
  rfl

/-- Witness for `status_update_spec`: confirming a pending reservation. -/
theorem status_update_spec_witness :
    (handleStatusUpdate ⟨[pendingRow], 2⟩ 1 (some "da_xac_nhan")).1.status = 200 ∧
    (handleStatusUpdate ⟨[pendingRow], 2⟩ 1 (some "da_xac_nhan")).2.rows.find?
        (fun r2 => r2.id_datban == 1) =
      some { pendingRow with trang_thai := "da_xac_nhan" } :=
  status_update_spec ⟨[pendingRow], 2⟩ 1 "da_xac_nhan" pendingRow
    (by decide) (by decide)

/-- C3 counterexample.  Three sequential executions that start in a state
satisfying the uniqueness invariant and end in one violating it: a
create whose phone differs only by a leading space, a status update that
reactivates a cancelled duplicate, and a partial update doing the same —
none of them is stopped by the conflict detector. -/
theorem write_ops_invariant_counterexample :
    (ReservationInvariant [pendingRow] ∧
      ¬ ReservationInvariant
        ((handleCreateReservation ⟨[pendingRow], 2⟩ paddedPhoneRequest 100 600).2.rows)) ∧
    (ReservationInvariant [cancelledRow, activeDupRow] ∧
      ¬ ReservationInvariant
        ((handleStatusUpdate ⟨[cancelledRow, activeDupRow], 3⟩ 1
          (some "cho_xac_nhan")).2.rows)) ∧
    ¬ ReservationInvariant
        ((handlePatchReservation ⟨[cancelledRow, activeDupRow], 3⟩ 1
          statusOnlyPatch).2.rows) := by
  refine ⟨⟨invariant_of_le_one_active _ (by decide), ?_⟩,
    ⟨invariant_of_le_one_active _ (by decide), ?_⟩, ?_⟩
  · intro h
    have h2 := h "0912345678" 101 (19, 0)
    have h3 : (((handleCreateReservation ⟨[pendingRow], 2⟩ paddedPhoneRequest
        100 600).2.rows).filter
        (matchesDuplicate "0912345678" 101 (19, 0) none)).length = 2 := by decide
    omega
  · intro h
    have h2 := h "0912345678" 101 (19, 0)
    have h3 : (((handleStatusUpdate ⟨[cancelledRow, activeDupRow], 3⟩ 1
        (some "cho_xac_nhan")).2.rows).filter
        (matchesDuplicate "0912345678" 101 (19, 0) none)).length = 2 := by decide
    omega
  · intro h
    have h2 := h "0912345678" 101 (19, 0)
    have h3 : (((handlePatchReservation ⟨[cancelledRow, activeDupRow], 3⟩ 1
        statusOnlyPatch).2.rows).filter
        (matchesDuplicate "0912345678" 101 (19, 0) none)).length = 2 := by decide
    omega

/-- Splitting bound: occurrences counted by `q` are covered by `A` and
`B`. -/
theorem countP_le_countP_add {α : Type} (l : List α) (q A B : α → Bool)
    (h : ∀ a ∈ l, q a = true → A a = true ∨ B a = true) :
    l.countP q ≤ l.countP A + l.countP B := by
  induction l with
  | nil => simp
  | cons a l ih =>
    have ih' := ih (fun x hx hq => h x (List.mem_cons_of_mem a hx) hq)
    rw [List.countP_cons, List.countP_cons, List.countP_cons]
    have bq : (if q a then 1 else 0) ≤
        ((if A a then 1 else 0) + (if B a then 1 else 0) : Nat) := by
      by_cases hq : q a = true
      · rcases h a (List.mem_cons_self a l) hq with hx | hx <;> simp [hq, hx]
      · simp [hq]
    omega

/-- Under distinct stored ids, at most one row carries a given id. -/
theorem countP_id_le_one (rows : List Reservation) (id : Nat)
    (h : (rows.map (fun r => r.id_datban)).Nodup) :
    rows.countP (fun r => r.id_datban == id) ≤ 1 := by
  induction rows with
  | nil => simp
  | cons a l ih =>
    rw [List.map_cons, List.nodup_cons] at h
    rw [List.countP_cons]
    by_cases ha : (a.id_datban == id) = true
    · have h0 : l.countP (fun r => r.id_datban == id) = 0 := by
        rw [List.countP_eq_zero]
        intro r hr
        simp only [beq_iff_eq] at ha ⊢
        intro he
        exact h.1 (by rw [ha, ← he]; exact List.mem_map_of_mem _ hr)
      simp [ha, h0]
    · have := ih h.2
      simp [ha]
      omega

/-- The create handler preserves the uniqueness invariant when the
payload's phone is already trimmed (so the duplicate query and the
insert agree on the stored phone). -/
theorem createReservation_preserves_invariant (s : DbState)
    (data : ReservationData) (today nowMin : Nat)
    (htrim : trimString (data.sdt.getD "") = data.sdt.getD "")
    (hInv : ReservationInvariant s.rows) :
    ReservationInvariant (handleCreateReservation s data today nowMin).2.rows := by
  simp only [handleCreateReservation]
  split
  · exact hInv
  · split
    · exact hInv
    · rename_i hv hdup
      rw [Bool.not_eq_true] at hdup
      intro sdt ngay gio
      show ((s.rows ++ [mkInsertRow s data]).filter
        (matchesDuplicate sdt ngay gio none)).length ≤ 1
      rw [List.filter_append, List.length_append]
      cases hrow : matchesDuplicate sdt ngay gio none (mkInsertRow s data) with
      | false =>
        have h1 : ([mkInsertRow s data].filter
            (matchesDuplicate sdt ngay gio none)).length = 0 := by
          simp [List.filter, hrow]
        have h2 := hInv sdt ngay gio
        omega
      | true =>
        rw [matchesDuplicate_eq_true_iff] at hrow
        obtain ⟨h1, h2, h3, _, _⟩ := hrow
        have hsdt : sdt = trimString (data.sdt.getD "") := h1.symm
        rw [htrim] at hsdt
        have hngay : ngay = data.ngay.getD 0 := h2.symm
        have hgio : gio = data.gio.getD (0, 0) := h3.symm
        subst hsdt
        subst hngay
        subst hgio
        have hd2 : ¬ (0 < dupCount s.rows (data.sdt.getD "") (data.ngay.getD 0)
            (data.gio.getD (0, 0)) none) := by
          rw [checkDuplicateReservation, checkDuplicateRun,
            decide_eq_false_iff_not] at hdup
          exact hdup
        have heq : (s.rows.filter (matchesDuplicate (data.sdt.getD "")
            (data.ngay.getD 0) (data.gio.getD (0, 0)) none)).length =
            dupCount s.rows (data.sdt.getD "") (data.ngay.getD 0)
              (data.gio.getD (0, 0)) none := rfl
        have hone := List.length_filter_le (matchesDuplicate (data.sdt.getD "")
            (data.ngay.getD 0) (data.gio.getD (0, 0)) none) [mkInsertRow s data]
        have hlen : ([mkInsertRow s data] : List Reservation).length = 1 := rfl
        omega

/-- The full-update handler preserves the uniqueness invariant when the
payload's phone is already trimmed and the stored ids are distinct (the
primary-key property of `id_datban`). -/
theorem putReservation_preserves_invariant (s : DbState) (id : Nat)
    (data : ReservationData) (today nowMin : Nat)
    (htrim : trimString (data.sdt.getD "") = data.sdt.getD "")
    (hids : (s.rows.map (fun r => r.id_datban)).Nodup)
    (hInv : ReservationInvariant s.rows) :
    ReservationInvariant (handlePutReservation s id data today nowMin).2.rows := by
  simp only [handlePutReservation]
  cases hfind : s.rows.find? (fun r => r.id_datban == id) with
  | none =>
    simp only [hfind]
    exact hInv
  | some r0 =>
    simp only [hfind]
    split
    · exact hInv
    · split
      · exact hInv
      · rename_i hv hdup
        rw [Bool.not_eq_true] at hdup
        intro sdt ngay gio
        show ((s.rows.map
            (fun r => if r.id_datban == id then mkPutRow id data else r)).filter
          (matchesDuplicate sdt ngay gio none)).length ≤ 1
        rw [← List.countP_eq_length_filter, List.countP_map]
        cases hnew : matchesDuplicate sdt ngay gio none (mkPutRow id data) with
        | false =>
          have h2 : s.rows.countP (matchesDuplicate sdt ngay gio none) ≤ 1 := by
            rw [List.countP_eq_length_filter]
            exact hInv sdt ngay gio
          have hco : ∀ r ∈ s.rows,
              ((matchesDuplicate sdt ngay gio none) ∘
                (fun r => if r.id_datban == id then mkPutRow id data else r)) r = true →
              matchesDuplicate sdt ngay gio none r = true := by
            intro r _ hp
            simp only [Function.comp_apply] at hp
            by_cases hrid : (r.id_datban == id) = true
            · rw [if_pos hrid] at hp
              rw [hp] at hnew
              exact absurd hnew (by simp)
            · rw [if_neg hrid] at hp
              exact hp
          exact le_trans (List.countP_mono_left hco) h2
        | true =>
          have hiff := (matchesDuplicate_eq_true_iff sdt ngay gio none
            (mkPutRow id data)).mp hnew
          obtain ⟨h1, h2, h3, _, _⟩ := hiff
          have hsdt : sdt = trimString (data.sdt.getD "") := h1.symm
          rw [htrim] at hsdt
          have hngay : ngay = data.ngay.getD 0 := h2.symm
          have hgio : gio = data.gio.getD (0, 0) := h3.symm
          subst hsdt
          subst hngay
          subst hgio
          have hdz : s.rows.countP (matchesDuplicate (data.sdt.getD "")
              (data.ngay.getD 0) (data.gio.getD (0, 0)) (some id)) = 0 := by
            rw [checkDuplicateReservation, checkDuplicateRun,
              decide_eq_false_iff_not] at hdup
            rw [List.countP_eq_length_filter]
            have : dupCount s.rows (data.sdt.getD "") (data.ngay.getD 0)
                (data.gio.getD (0, 0)) (some id) = 0 := by omega
            exact this
          have hid1 := countP_id_le_one s.rows id hids
          have hcover : ∀ r ∈ s.rows,
              ((matchesDuplicate (data.sdt.getD "") (data.ngay.getD 0)
                  (data.gio.getD (0, 0)) none) ∘
                (fun r => if r.id_datban == id then mkPutRow id data else r)) r = true →
              (fun r => r.id_datban == id) r = true ∨
              matchesDuplicate (data.sdt.getD "") (data.ngay.getD 0)
                (data.gio.getD (0, 0)) (some id) r = true := by
            intro r _ hq
            simp only [Function.comp_apply] at hq
            by_cases hrid : (r.id_datban == id) = true
            · exact Or.inl hrid
            · rw [if_neg hrid] at hq
              refine Or.inr ?_
              rw [matchesDuplicate_eq_true_iff] at hq ⊢
              obtain ⟨q1, q2, q3, q4, _⟩ := hq
              refine ⟨q1, q2, q3, q4, ?_⟩
              rintro k hk hk0
              injection hk with hki
              subst hki
              simp only [beq_iff_eq] at hrid
              exact hrid
          have hsplit := countP_le_countP_add s.rows _ _ _ hcover
          omega

/-- C3 (amended).  Under sequential execution, create and full-update
requests preserve the per-tuple uniqueness invariant provided the
payload's phone equals its trimmed form (and, for updates, stored ids
are distinct); the partial-update and status-update operations run no
conflict check and do not preserve it, and a create whose phone differs
only by surrounding whitespace can also violate it. -/
theorem reservation_writes_preserve_invariant_amended :
    (∀ (s : DbState) (data : ReservationData) (today nowMin : Nat),
      trimString (data.sdt.getD "") = data.sdt.getD "" →
      ReservationInvariant s.rows →
      ReservationInvariant (handleCreateReservation s data today nowMin).2.rows) ∧
    (∀ (s : DbState) (id : Nat) (data : ReservationData) (today nowMin : Nat),
      trimString (data.sdt.getD "") = data.sdt.getD "" →
      (s.rows.map (fun r => r.id_datban)).Nodup →
      ReservationInvariant s.rows →
      ReservationInvariant (handlePutReservation s id data today nowMin).2.rows) :=
  ⟨fun s data today nowMin htrim hInv =>
      createReservation_preserves_invariant s data today nowMin htrim hInv,
    fun s id data today nowMin htrim hids hInv =>
      putReservation_preserves_invariant s id data today nowMin htrim hids hInv⟩

/-- Witness for `reservation_writes_preserve_invariant_amended`: the 201
create of a trimmed-phone request against the empty database keeps the
invariant. -/
theorem reservation_writes_preserve_invariant_amended_witness :
    ReservationInvariant
      (handleCreateReservation ⟨[], 1⟩ validRequest 100 600).2.rows :=
  reservation_writes_preserve_invariant_amended.1 ⟨[], 1⟩ validRequest 100 600
    (by decide) (invariant_of_le_one_active _ (by decide))

/-- One-step unfolding of `likeMatch` on a cons pattern. -/
theorem likeMatch_cons_eq (c : Char) (p s : List Char) :
    likeMatch (c :: p) s =
      (if c == '%' then s.tails.any (fun t => likeMatch p t)
      else if c == '_' then
        (match s with
        | [] => false
        | _ :: s2 => likeMatch p s2)
      else if c == '\\' then
        (match p with
        | [] => s == ['\\']
        | e :: p2 =>
          match s with
          | [] => false
          | d :: s2 => d == e && likeMatch p2 s2)
      else
        (match s with
        | [] => false
        | d :: s2 => d == c && likeMatch p s2)) := by
  rw [likeMatch.eq_def]

/-- A leading `%` in a LIKE pattern matches any split point: the rest of
the pattern must match some suffix. -/
theorem likeMatch_percent (p s : List Char) :
    likeMatch ('%' :: p) s = true ↔ ∃ t, t <:+ s ∧ likeMatch p t = true := by
  rw [likeMatch_cons_eq]
  simp [List.any_eq_true, List.mem_tails]

/-- The empty pattern matches only the empty string. -/
theorem likeMatch_nil_eq (s : List Char) : likeMatch [] s = s.isEmpty := by
  rw [likeMatch.eq_def]

/-- A backslash escape matches the escaped character literally. -/
theorem likeMatch_escape_pair (e : Char) (p2 s : List Char) :
    likeMatch ('\\' :: e :: p2) s =
      (match s with
       | [] => false
       | d :: s2 => d == e && likeMatch p2 s2) := by
  rw [likeMatch_cons_eq]
  simp only [show ('\\' == '%') = false from rfl, show ('\\' == '_') = false from rfl,
    show ('\\' == '\\') = true from rfl, Bool.false_eq_true, if_false, if_true]

/-- A pattern headed by an unescaped ordinary character matches that
character literally. -/
theorem likeMatch_plain_cons (c : Char) (p s : List Char)
    (hc1 : c ≠ '%') (hc2 : c ≠ '_') (hc3 : c ≠ '\\') :
    likeMatch (c :: p) s =
      (match s with
       | [] => false
       | d :: s2 => d == c && likeMatch p s2) := by
  have b1 : (c == '%') = false := beq_eq_false_iff_ne.mpr hc1
  have b2 : (c == '_') = false := beq_eq_false_iff_ne.mpr hc2
  have b3 : (c == '\\') = false := beq_eq_false_iff_ne.mpr hc3
  rw [likeMatch_cons_eq, b1, b2, b3]
  simp only [Bool.false_eq_true, if_false]

/-- An escaped backslash-free literal followed by `%` matches exactly
the strings that start with the literal. -/
theorem likeMatch_escaped (l : List Char) (hb : '\\' ∉ l) :
    ∀ t, likeMatch (l.flatMap escapeWildcard ++ ['%']) t = true ↔ l <+: t := by
  induction l with
  | nil =>
    intro t
    simp only [List.flatMap_nil, List.nil_append]
    constructor
    · intro _
      exact List.nil_prefix
    · intro _
      rw [likeMatch_percent]
      refine ⟨[], List.nil_suffix, ?_⟩
      rw [likeMatch_nil_eq]
      rfl
  | cons c l1 ih =>
    intro t
    have hbc : c ≠ '\\' := fun h => hb (h ▸ List.mem_cons_self c l1)
    have hb1 : '\\' ∉ l1 := fun h => hb (List.mem_cons_of_mem c h)
    have ih' := ih hb1
    by_cases hc1 : c = '%'
    · subst hc1
      have hshape : ('%' :: l1).flatMap escapeWildcard ++ ['%'] =
          '\\' :: '%' :: (l1.flatMap escapeWildcard ++ ['%']) := by
        rw [List.flatMap_cons]
        rfl
      rw [hshape, likeMatch_escape_pair]
      cases t with
      | nil =>
        simp only [Bool.false_eq_true, false_iff]
        intro hpre
        exact List.cons_ne_nil _ _ (List.prefix_nil.mp hpre)
      | cons d t2 =>
        simp only [Bool.and_eq_true, beq_iff_eq, ih' t2, List.cons_prefix_cons]
        constructor
        · rintro ⟨rfl, hp⟩
          exact ⟨rfl, hp⟩
        · rintro ⟨rfl, hp⟩
          exact ⟨rfl, hp⟩
    · by_cases hc2 : c = '_'
      · subst hc2
        have hshape : ('_' :: l1).flatMap escapeWildcard ++ ['%'] =
            '\\' :: '_' :: (l1.flatMap escapeWildcard ++ ['%']) := by
          rw [List.flatMap_cons]
          rfl
        rw [hshape, likeMatch_escape_pair]
        cases t with
        | nil =>
          simp only [Bool.false_eq_true, false_iff]
          intro hpre
          exact List.cons_ne_nil _ _ (List.prefix_nil.mp hpre)
        | cons d t2 =>
          simp only [Bool.and_eq_true, beq_iff_eq, ih' t2, List.cons_prefix_cons]
          constructor
          · rintro ⟨rfl, hp⟩
            exact ⟨rfl, hp⟩
          · rintro ⟨rfl, hp⟩
            exact ⟨rfl, hp⟩
      · have hesc : escapeWildcard c = [c] := by
          simp [escapeWildcard, hc1, hc2]
        have hshape : (c :: l1).flatMap escapeWildcard ++ ['%'] =
            c :: (l1.flatMap escapeWildcard ++ ['%']) := by
          rw [List.flatMap_cons, hesc]
          rfl
        rw [hshape, likeMatch_plain_cons _ _ _ hc1 hc2 hbc]
        cases t with
        | nil =>
          simp only [Bool.false_eq_true, false_iff]
          intro hpre
          exact List.cons_ne_nil _ _ (List.prefix_nil.mp hpre)
        | cons d t2 =>
          simp only [Bool.and_eq_true, beq_iff_eq, ih' t2, List.cons_prefix_cons]
          constructor
          · rintro ⟨rfl, hp⟩
            exact ⟨rfl, hp⟩
          · rintro ⟨rfl, hp⟩
            exact ⟨rfl, hp⟩

/-- A backslash-free literal wrapped in `%…%` matches exactly the
strings containing the literal. -/
theorem likeMatch_wrapped (l s : List Char) (hb : '\\' ∉ l) :
    likeMatch ('%' :: (l.flatMap escapeWildcard ++ ['%'])) s = true ↔
      l <:+: s := by
  rw [likeMatch_percent, List.infix_iff_prefix_suffix]
  constructor
  · rintro ⟨t, hts, hm⟩
    exact ⟨t, (likeMatch_escaped l hb t).mp hm, hts⟩
  · rintro ⟨t, hlt, hts⟩
    exact ⟨t, hts, (likeMatch_escaped l hb t).mpr hlt⟩

/-- C8 (amended).  `sanitizeSearchQuery` neutralizes the SQL wildcards
`%` and `_` but not backslash: for search text whose trimmed,
angle-bracket-stripped core is backslash-free and within the 100-char
cap, the generated `%…%` pattern matches exactly the strings containing
that core literally; in particular `%` in the input cannot act as a
wildcard. -/
theorem search_pattern_literal_match (q s : List Char)
    (hb : '\\' ∉ sanitizeCore q)
    (hlen : ((sanitizeCore q).flatMap escapeWildcard).length ≤ 100) :
    likeMatch (mkSearchPattern q) s = true ↔ sanitizeCore q <:+: s := by
  rw [mkSearchPattern, sanitizeSearchList, List.take_of_length_le hlen]
  exact likeMatch_wrapped (sanitizeCore q) s hb

/-- Witness for `search_pattern_literal_match`: the pattern built from
search text `50%` matches a string containing `50%` literally. -/
theorem search_pattern_literal_match_witness :
    likeMatch (mkSearchPattern ("50%".data)) ("a50%b".data) = true :=
  (search_pattern_literal_match ("50%".data) ("a50%b".data) (by decide)
    (by decide)).mpr (by decide)

/-- C8 counterexample.  Backslash is not neutralized: the sanitized
single-backslash search is unchanged, and its `%…%` pattern matches the
string `%` although `%` does not contain a backslash — the escaping is
not sufficient for the pattern to match only literal occurrences. -/
theorem search_backslash_counterexample :
    sanitizeSearchQuery "\\" = "\\" ∧
    likeMatch (mkSearchPattern ("\\".data)) ("%".data) = true ∧
    ¬ (("\\".data) <:+: ("%".data)) := by
  refine ⟨by decide, by decide, by decide⟩
